import Mathlib

/-!
Shallow embedding of the intent classification and routing engine of
`apps/intent-router/main.py` (class `IntentRecognitionEngine` and the static
`ServiceRegistry` catalog), together with theorems settling the frozen claims
about it.

Modelling conventions:
* Python numbers (rule priorities, scores, weights, timeouts) are modelled as
  exact rationals `ℚ`; the claims under study are about the algebraic structure
  of the score pipeline, not floating-point rounding.
* Python dicts are association lists `List (String × α)` in insertion order;
  assignment `d[k] = v` is `dictInsert` (updates the first occurrence in place,
  else appends), lookup `d.get(k)` is `dictLookup` (first occurrence).
* Python exceptions are the `Except String` monad: `.error "ValueError"` models
  `float(...)` failing to parse, `.error "TypeError"` models operations applied
  to operands of the wrong runtime type.  Code paths that the source executes
  without any enclosing `try` propagate these errors to the caller, exactly as
  Python propagates exceptions.
* Library collaborators that are not code of this repository are parameters:
  `rm : String → String → Bool` models `re.match(pattern, s)` (as a truth-valued
  oracle; no claim depends on which regex dialect it implements), `md5 : String
  → String` models `hashlib.md5(...).hexdigest()`, and the optional
  `mlc : Option (String → List (String × ℚ))` models the optional
  `intent_classifier` pipeline (label → score map); `hour : ℕ` models
  `datetime.utcnow().hour`, and `procTime : ℚ` the measured processing time.
  Python's builtin `float(str)` is modelled by `parseDecimal` on the decimal
  core of its grammar (optional sign, digits, optional fractional part);
  the inputs exercised here fall inside that core.
* Redis is modelled as an in-process association list from cache key to the
  stored response.  Entry expiry (`setex` TTL) is behaviour of the external
  store; a present entry corresponds to a lookup within the TTL.
-/

/-- JSON-ish runtime values appearing in routing-rule conditions
(`condition.get('value')` and friends): Python `None`, `str`, numbers,
lists and booleans. -/
inductive JVal where
  | null
  | str (s : String)
  | num (q : ℚ)
  | arr (xs : List JVal)
  | bool (b : Bool)

/-- Lookup in a Python dict modelled as an association list (first match;
keys of a real dict are unique). -/
def dictLookup (d : List (String × α)) (k : String) : Option α :=
  match d with
  | [] => none
  | (k', v) :: rest => if k' = k then some v else dictLookup rest k

/-- Python dict assignment `d[k] = v`: replaces the value at an existing key
in place (preserving its position, as CPython dicts do), else appends. -/
def dictInsert (k : String) (v : α) : List (String × α) → List (String × α)
  | [] => [(k, v)]
  | (k', v') :: rest => if k' = k then (k, v) :: rest else (k', v') :: dictInsert k v rest

/-- `request` model (pydantic `IntentRequest`): `text`, `path`, `method` and
`headers` are `Optional` in the source; `context` defaults to `{}` (the code
reads `request.context.get(...)` unconditionally, so a well-formed request has
a dict there); `body` is opaque and only matters for the cache-key claim. -/
structure IntentRequest where
  text : Option String
  path : Option String
  method : Option String
  headers : Option (List (String × String))
  body : Option String
  context : List (String × String)
deriving DecidableEq, Repr

/-- A leaf condition of a routing rule: the dict
`{'type': …, 'operator': …, 'value': …, 'key': …}` accessed with `.get`. -/
structure Condition where
  type : Option String
  operator : Option String
  value : JVal
  key : Option String

/-- The rule's `conditions` dict: presence of the `'AND'` / `'OR'` keys
(`'AND' in conditions`) with their condition lists. -/
structure Conditions where
  andConds : Option (List Condition)
  orConds : Option (List Condition)

/-- The rule's `actions` dict: `actions['route']` (required by the code — a
`KeyError` on a matching rule without it is outside the claims) and
`actions.get('priority', 100)`. -/
structure RuleActions where
  route : String
  priority : Option ℚ

/-- One entry of `routing_rules['rules']`. -/
structure Rule where
  conditions : Conditions
  actions : RuleActions

/-- One intent-category config dict of `meta_routing_config['intentCategories']`.
The fields `category` and `confidence` model the dict keys of the same names
that `_select_best_intent` writes into the config dict through the
`category_info = config` alias; a freshly loaded configuration has neither
key (`none`). -/
structure Category where
  targetService : String
  keywords : Option (List String)
  patterns : Option (List String)
  priority : Option ℚ
  mlModel : Option String
  category : Option String
  confidence : Option ℚ
deriving DecidableEq, Repr

/-- One entry of `meta_routing_config['contextualFactors']`:
`config.get('weight', 1.0)`. -/
structure FactorConfig where
  weight : Option ℚ
deriving DecidableEq, Repr

/-- The loaded configuration of `IntentRecognitionEngine`:
`meta_routing_config` (intent categories, contextual factors,
`metaRoutingEngine.algorithmType`) and `routing_rules['rules']`. -/
structure Engine where
  intentCategories : List (String × Category)
  contextualFactors : List (String × FactorConfig)
  algorithmType : Option String
  rules : List Rule

/-- One static `ServiceRegistry` catalog entry. -/
structure Service where
  url : String
  health : String
  timeout : ℚ
deriving DecidableEq, Repr

/-- The static `ServiceRegistry.services` catalog, verbatim from the source. -/
def serviceRegistryServices : List (String × Service) :=
  [ ("user-authentication-service",
      { url := "https://user-authentication-service.run.app", health := "/health", timeout := 10000 }),
    ("payment-processing-service",
      { url := "https://payment-processing-service.run.app", health := "/healthz", timeout := 30000 }),
    ("email-notification-service",
      { url := "https://email-notification-service.run.app", health := "/health/live", timeout := 15000 }),
    ("image-processing-service",
      { url := "https://image-processing-service.run.app", health := "/ping", timeout := 120000 }),
    ("data-analytics-service",
      { url := "https://data-analytics-service.run.app", health := "/health/liveness", timeout := 30000 }),
    ("pdf-generator-service",
      { url := "https://pdf-generator-service.run.app", health := "/healthcheck", timeout := 60000 }),
    ("websocket-chat-service",
      { url := "https://websocket-chat-service.run.app", health := "/ws/health", timeout := 3600000 }),
    ("machine-learning-inference-service",
      { url := "https://machine-learning-inference-service.run.app", health := "/v1/models/recommendation-model", timeout := 60000 }),
    ("scheduled-batch-processor-service",
      { url := "https://scheduled-batch-processor-service.run.app", health := "/health", timeout := 1800000 }),
    ("api-gateway-service",
      { url := "https://api-gateway-service.run.app", health := "/health/live", timeout := 30000 }) ]

/-- Digit run to a natural number (`digitsToNat "123" = 123`). -/
def digitsToNat (cs : List Char) : ℕ :=
  cs.foldl (fun a c => a * 10 + (c.toNat - 48)) 0

/-- Unsigned decimal core of Python `float(str)`: digits with an optional
fractional part, at least one digit overall (`"1"`, `"1.5"`, `"1."`, `".5"`). -/
def parseUnsigned (cs : List Char) : Option ℚ :=
  let intPart := cs.takeWhile Char.isDigit
  let rest := cs.dropWhile Char.isDigit
  match rest with
  | [] => if intPart.isEmpty then none else some (digitsToNat intPart)
  | '.' :: frac =>
      if frac.all Char.isDigit && !(intPart.isEmpty && frac.isEmpty) then
        some ((digitsToNat intPart : ℚ) + (digitsToNat frac : ℚ) / ((10 : ℚ) ^ frac.length))
      else none
  | _ => none

/-- Signed decimal core of Python `float(str)`: `none` models `ValueError`. -/
def parseDecimal (s : String) : Option ℚ :=
  match s.toList with
  | '-' :: rest => (parseUnsigned rest).map Neg.neg
  | '+' :: rest => parseUnsigned rest
  | cs => parseUnsigned cs

/-- Python `float(x)` on a runtime value: numbers and booleans convert,
strings parse (`ValueError` on failure), `None`/lists raise `TypeError`. -/
def pyFloat : JVal → Except String ℚ
  | .num q => .ok q
  | .bool b => .ok (if b then 1 else 0)
  | .str s =>
      match parseDecimal s with
      | some q => .ok q
      | none => .error "ValueError"
  | .null => .error "TypeError"
  | .arr _ => .error "TypeError"

/-- Python `==` between a `str` and an arbitrary value: only equal strings
compare equal (no cross-type coercion for `str`). -/
def pyEqStr (a : String) : JVal → Bool
  | .str s => decide (a = s)
  | _ => false

/-- Substring test on char lists (`needle in hay` for Python strings). -/
def charsContain : List Char → List Char → Bool
  | [], needle => needle.isEmpty
  | c :: rest, needle => needle.isPrefixOf (c :: rest) || charsContain rest needle

/-- Python `sub in hay` for strings. -/
def strContainsStr (hay sub : String) : Bool :=
  charsContain hay.toList sub.toList

/-- `_match_value(actual, operator, value)`.  `actual` is always an optional
string in the source (a path, a method or a header value); `rm` models
`re.match`.  `None` actual fails the condition; each operator mirrors its
Python expression, including the exceptions Python raises (`greater` applies
`float` to both sides with no enclosing `try`). -/
def matchValue (rm : String → String → Bool) (actual : Option String)
    (operator : Option String) (expected : JVal) : Except String Bool :=
  match actual with
  | none => .ok false
  | some a =>
    if operator = some "equals" then .ok (pyEqStr a expected)
    else if operator = some "matches" then
      match expected with
      | .str p => .ok (rm p a)
      | _ => .error "TypeError"
    else if operator = some "contains" then
      match expected with
      | .str p => .ok (strContainsStr a p)
      | _ => .error "TypeError"
    else if operator = some "starts" then
      match expected with
      | .str p => .ok (p.isPrefixOf a)
      | _ => .error "TypeError"
    else if operator = some "in" then
      match expected with
      | .str p => .ok (strContainsStr p a)
      | .arr xs => .ok (xs.any (pyEqStr a))
      | _ => .error "TypeError"
    else if operator = some "exists" then .ok true
    else if operator = some "greater" then
      match pyFloat (.str a), pyFloat expected with
      | .ok x, .ok y => .ok (decide (y < x))
      | .error e, _ => .error e
      | _, .error e => .error e
    else .ok false

/-- `_evaluate_condition(condition, request)`: dispatch on `condition['type']`;
a `header` condition reads `request.headers.get(key)` only when the headers
dict is truthy; `any` matches iff the operator is the string `"true"`;
unknown types fail closed. -/
def evaluateCondition (rm : String → String → Bool) (cond : Condition)
    (req : IntentRequest) : Except String Bool :=
  match cond.type with
  | some "path" => matchValue rm req.path cond.operator cond.value
  | some "method" => matchValue rm req.method cond.operator cond.value
  | some "header" =>
      let hv : Option String :=
        match req.headers with
        | some hs => if hs.isEmpty then none else cond.key.bind (dictLookup hs)
        | none => none
      matchValue rm hv cond.operator cond.value
  | some "any" => .ok (decide (cond.operator = some "true"))
  | _ => .ok false

/-- Python `all(...)` over condition evaluations: short-circuits on the first
false, propagating the first exception raised. -/
def evalAll (rm : String → String → Bool) (req : IntentRequest) :
    List Condition → Except String Bool
  | [] => .ok true
  | c :: rest =>
      match evaluateCondition rm c req with
      | .error e => .error e
      | .ok true => evalAll rm req rest
      | .ok false => .ok false

/-- Python `any(...)` over condition evaluations: short-circuits on the first
true, propagating the first exception raised. -/
def evalAny (rm : String → String → Bool) (req : IntentRequest) :
    List Condition → Except String Bool
  | [] => .ok false
  | c :: rest =>
      match evaluateCondition rm c req with
      | .error e => .error e
      | .ok true => .ok true
      | .ok false => evalAny rm req rest

/-- `_evaluate_rule_conditions(rule, request)`: `'AND' in conditions` wins,
then `'OR' in conditions`, else `False`. -/
def evaluateRuleConditions (rm : String → String → Bool) (rule : Rule)
    (req : IntentRequest) : Except String Bool :=
  match rule.conditions.andConds with
  | some l => evalAll rm req l
  | none =>
      match rule.conditions.orConds with
      | some l => evalAny rm req l
      | none => .ok false

/-- Loop body accumulator of `_apply_routing_rules`: each matching rule
assigns `scores[route] = priority / 1000.0`; exceptions from condition
evaluation propagate (there is no enclosing `try`). -/
def applyRoutingRulesGo (rm : String → String → Bool) (req : IntentRequest) :
    List Rule → List (String × ℚ) → Except String (List (String × ℚ))
  | [], scores => .ok scores
  | r :: rest, scores =>
      match evaluateRuleConditions rm r req with
      | .error e => .error e
      | .ok true =>
          applyRoutingRulesGo rm req rest
            (dictInsert r.actions.route (r.actions.priority.getD 100 / 1000) scores)
      | .ok false => applyRoutingRulesGo rm req rest scores

/-- `_apply_routing_rules(request)`. -/
def applyRoutingRules (rm : String → String → Bool) (rules : List Rule)
    (req : IntentRequest) : Except String (List (String × ℚ)) :=
  applyRoutingRulesGo rm req rules []

/-- Per-category score of `_match_patterns`: the keyword-overlap fraction
(when `request.text` and `config.get('keywords')` are truthy and at least one
keyword is a substring of the lower-cased text), floored at `0.8` when some
configured path pattern `re.match`es a truthy `request.path`. -/
def categoryScore (rm : String → String → Bool) (req : IntentRequest)
    (c : Category) : ℚ :=
  let kwScore : ℚ :=
    match req.text, c.keywords with
    | some t, some kws =>
        if t = "" ∨ kws = [] then 0
        else
          let tl := t.toLower
          let matching := (kws.filter (fun kw => strContainsStr tl kw)).length
          if 0 < matching then (matching : ℚ) / (kws.length : ℚ) else 0
    | _, _ => 0
  match req.path, c.patterns with
  | some p, some pats =>
      if p = "" ∨ pats = [] then kwScore
      else if pats.any (fun pat => rm pat p) then max kwScore (4/5) else kwScore
  | _, _ => kwScore

/-- Loop of `_match_patterns`: each category with a positive score assigns
`scores[config['targetService']] = score`. -/
def matchPatternsGo (rm : String → String → Bool) (req : IntentRequest) :
    List (String × Category) → List (String × ℚ) → List (String × ℚ)
  | [], scores => scores
  | (_, c) :: rest, scores =>
      let score := categoryScore rm req c
      matchPatternsGo rm req rest
        (if 0 < score then dictInsert c.targetService score scores else scores)

/-- `_match_patterns(request)`. -/
def matchPatterns (rm : String → String → Bool) (cats : List (String × Category))
    (req : IntentRequest) : List (String × ℚ) :=
  matchPatternsGo rm req cats []

/-- `_calculate_intent_scores(request)`: the `'ml'` entry is present only when
`request.text` is truthy and the classifier is loaded (`_ml_classify` of a
loaded classifier is the pure map `mlc`); then `'rules'` and `'patterns'`. -/
def calculateIntentScores (rm : String → String → Bool)
    (mlc : Option (String → List (String × ℚ))) (eng : Engine)
    (req : IntentRequest) : Except String (List (String × List (String × ℚ))) :=
  let mlPart : List (String × List (String × ℚ)) :=
    match req.text, mlc with
    | some t, some f => if t = "" then [] else [("ml", f t)]
    | _, _ => []
  match applyRoutingRules rm eng.rules req with
  | .error e => .error e
  | .ok ruleScores =>
      .ok (mlPart ++ [("rules", ruleScores), ("patterns", matchPatterns rm eng.intentCategories req)])

/-- Truthiness of an optional string (Python `if value:`). -/
def truthyOptStr : Option String → Bool
  | some s => !(s = "")
  | none => false

/-- Truthiness of the optional headers dict (Python `if request.headers:`). -/
def truthyHeaders : Option (List (String × String)) → Bool
  | some hs => !hs.isEmpty
  | none => false

/-- `_calculate_factor_score(factor_name, request, config)` with the current
UTC hour as an explicit parameter. -/
def calculateFactorScore (name : String) (req : IntentRequest)
    (cfg : FactorConfig) (hour : ℕ) : ℚ :=
  let base : ℚ :=
    if name = "userProfile" ∧ truthyOptStr (dictLookup req.context "userId") then 7/10
    else if name = "requestMetadata" ∧ truthyHeaders req.headers then 3/5
    else if name = "systemState" then 4/5
    else if name = "temporalContext" then (if 9 ≤ hour ∧ hour ≤ 17 then 9/10 else 2/5)
    else if name = "businessLogic" then 3/4
    else 1/2
  base * cfg.weight.getD 1

/-- The `factors` map built by `_apply_contextual_factors` (the source guards
the loop with a truthiness check on `contextualFactors`, which is equivalent
to mapping over its entries: a missing or empty dict yields `{}` either way). -/
def computeFactors (eng : Engine) (req : IntentRequest) (hour : ℕ) :
    List (String × ℚ) :=
  eng.contextualFactors.map (fun nc => (nc.1, calculateFactorScore nc.1 req nc.2 hour))

/-- The `(service_score, count)` accumulation of the inner loop of
`_combine_scores` for one service. -/
def serviceContribution (iss : List (String × List (String × ℚ))) (s : String) :
    ℚ × ℕ :=
  iss.foldl
    (fun acc src =>
      match dictLookup src.2 s with
      | some v => (acc.1 + v, acc.2 + 1)
      | none => acc)
    (0, 0)

/-- `all_services` of `_combine_scores`: the union of the key sets of all
score-source maps.  The source collects them in a Python `set`, whose
iteration order is unspecified; the model fixes one order (`dedup` of the
concatenated key lists) — no claim under study depends on the order. -/
def allServices (iss : List (String × List (String × ℚ))) : List String :=
  (iss.flatMap (fun src => src.2.map Prod.fst)).dedup

/-- Entry produced by the outer loop of `_combine_scores` for one service:
`combined[service] = service_score / count` when `count > 0`. -/
def combineEntry (iss : List (String × List (String × ℚ))) (s : String) :
    Option (String × ℚ) :=
  if 0 < (serviceContribution iss s).2 then
    some (s, (serviceContribution iss s).1 / ((serviceContribution iss s).2 : ℚ))
  else none

/-- `_combine_scores(intent_scores, factors)`.  Every `all_services` element
is distinct, so the loop's dict assignments append in iteration order; the
source's `isinstance(scores, dict)` guards always hold (every source produces
a dict); the `factors` argument is taken (as in the source) and never read. -/
def combineScores (iss : List (String × List (String × ℚ)))
    (factors : List (String × ℚ)) : List (String × ℚ) :=
  (allServices iss).filterMap (combineEntry iss)

/-- `_apply_contextual_factors(request, intent_scores)`: returns the pair
modelling the dict `{'scores': …, 'factors': …}`. -/
def applyContextualFactors (eng : Engine) (req : IntentRequest) (hour : ℕ)
    (iss : List (String × List (String × ℚ))) :
    List (String × ℚ) × List (String × ℚ) :=
  (combineScores iss (computeFactors eng req hour), computeFactors eng req hour)

/-- Inner scan of Python `max(scores, key=scores.get)`: keeps the current
best key and replaces it only on a strictly greater value, so the first key
attaining the maximum (in dict iteration order) wins. -/
def pythonMaxKeyGo (best : String) (bv : ℚ) : List (String × ℚ) → String
  | [] => best
  | (k, v) :: rest => if bv < v then pythonMaxKeyGo k v rest else pythonMaxKeyGo best bv rest

/-- Python `max(scores, key=scores.get)` on a dict (`none` on an empty one,
where the source takes the fallback branch instead). -/
def pythonMaxKey : List (String × ℚ) → Option String
  | [] => none
  | (k, v) :: rest => some (pythonMaxKeyGo k v rest)

/-- The reverse lookup loop of `_select_best_intent`: finds the first category
whose config names `best` as target and — through the `category_info = config`
alias — writes the keys `category` and `confidence` into that stored config
dict.  Returns the matched (already mutated) entry and the updated category
list. -/
def selectCat (best : String) (conf : ℚ) :
    List (String × Category) → Option (String × Category) × List (String × Category)
  | [] => (none, [])
  | (n, c) :: rest =>
      if c.targetService = best then
        let c' := { c with category := some n, confidence := some conf }
        (some (n, c'), (n, c') :: rest)
      else
        let r := selectCat best conf rest
        (r.1, (n, c) :: r.2)

/-- The dict `_select_best_intent` returns (`category_info` plus the
`confidence` key), restricted to the keys the caller reads. -/
structure BestIntent where
  category : String
  confidence : ℚ
  targetService : String
  priority : Option ℚ
  keywords : Option (List String)
  mlModel : Option String
deriving DecidableEq, Repr

/-- `_select_best_intent(contextual_scores)` on the combined score map,
also returning the (possibly mutated, see `selectCat`) intent-category
configuration. -/
def selectBestIntent (cats : List (String × Category)) (scores : List (String × ℚ)) :
    BestIntent × List (String × Category) :=
  match pythonMaxKey scores with
  | none =>
      ({ category := "general", confidence := 0, targetService := "api-gateway-service",
         priority := some 100, keywords := none, mlModel := none }, cats)
  | some best =>
      let confidence := (dictLookup scores best).getD 0
      match selectCat best confidence cats with
      | (some nc, cats2) =>
          ({ category := nc.1, confidence := confidence, targetService := nc.2.targetService,
             priority := nc.2.priority, keywords := nc.2.keywords, mlModel := nc.2.mlModel },
           cats2)
      | (none, _) =>
          ({ category := "unknown", confidence := confidence, targetService := best,
             priority := some 100, keywords := none, mlModel := none }, cats)

/-- JSON string literal.  The model omits character escaping (the claims only
need serialization to be a function of the serialized fields, never
injectivity on exotic characters). -/
def jsonString (s : String) : String :=
  "\"" ++ s ++ "\""

/-- `json.dumps` of an optional string. -/
def jsonOptString : Option String → String
  | none => "null"
  | some s => jsonString s

/-- Insertion step of key-sorting a dict (for `sort_keys=True`). -/
def insertPairSorted (p : String × String) :
    List (String × String) → List (String × String)
  | [] => [p]
  | q :: rest => if p.1 < q.1 then p :: q :: rest else q :: insertPairSorted p rest

/-- Sort a dict's pairs by key (`json.dumps(..., sort_keys=True)`). -/
def sortPairs : List (String × String) → List (String × String)
  | [] => []
  | p :: rest => insertPairSorted p (sortPairs rest)

/-- `json.dumps` of the optional headers dict with sorted keys. -/
def jsonHeaders : Option (List (String × String)) → String
  | none => "null"
  | some hs =>
      "\x7b" ++
        String.intercalate ", "
          ((sortPairs hs).map (fun p => jsonString p.1 ++ ": " ++ jsonString p.2)) ++
      "\x7d"

/-- `_generate_cache_key(request)`: the md5 digest (modelled by the `md5`
parameter) of the sorted-keys JSON serialization of
`{'text':…, 'path':…, 'method':…, 'headers':…}`, under the `intent:`
namespace.  `body` and `context` are not serialized. -/
def generateCacheKey (md5 : String → String) (req : IntentRequest) : String :=
  let keyStr :=
    "\x7b\"headers\": " ++ jsonHeaders req.headers ++
    ", \"method\": " ++ jsonOptString req.method ++
    ", \"path\": " ++ jsonOptString req.path ++
    ", \"text\": " ++ jsonOptString req.text ++ "\x7d"
  "intent:" ++ md5 keyStr

/-- The response dict `classify_intent` builds on a cache miss, restricted to
the scalar fields the claims mention (nested dicts are flattened into
prefixed field names). -/
structure Response where
  intentId : String
  riCategory : String
  riConfidence : ℚ
  riKeywords : List String
  riMlModel : Option String
  rtTargetService : String
  rtPriority : ℚ
  rtStrategy : String
  rtTimeout : ℚ
  mdProcessingTime : ℚ
  mdCacheHit : Bool
  mdModelVersion : String
  contextualFactors : List (String × ℚ)
deriving DecidableEq, Repr

/-- The fresh response assembled by `classify_intent` on a cache miss. -/
def buildResponse (eng : Engine) (freshId : String) (procTime : ℚ)
    (best : BestIntent) (factors : List (String × ℚ)) : Response :=
  { intentId := freshId
    riCategory := best.category
    riConfidence := best.confidence
    riKeywords := best.keywords.getD []
    riMlModel := best.mlModel
    rtTargetService := best.targetService
    rtPriority := best.priority.getD 100
    rtStrategy := eng.algorithmType.getD "ml-enhanced"
    rtTimeout := ((dictLookup serviceRegistryServices best.targetService).map Service.timeout).getD 30000
    mdProcessingTime := procTime
    mdCacheHit := false
    mdModelVersion := "v1.0.0"
    contextualFactors := factors }

/-- `classify_intent(request)` with the working cache, the fresh uuid and the
measured time as explicit inputs.  On a hit the stored result is returned with
`metadata['cacheHit'] = True` and nothing else touched; on a miss the pipeline
runs (rule evaluation may raise, exactly as in the source), the fresh result
is cached under the request's key, and the (possibly mutated by
`_select_best_intent`) intent-category configuration is the third component. -/
def classifyIntent (rm : String → String → Bool)
    (mlc : Option (String → List (String × ℚ))) (md5 : String → String)
    (eng : Engine) (hour : ℕ) (cache : List (String × Response))
    (req : IntentRequest) (freshId : String) (procTime : ℚ) :
    Except String (Response × List (String × Response) × List (String × Category)) :=
  let key := generateCacheKey md5 req
  match dictLookup cache key with
  | some cached => .ok ({ cached with mdCacheHit := true }, cache, eng.intentCategories)
  | none =>
      match calculateIntentScores rm mlc eng req with
      | .error e => .error e
      | .ok iss =>
          let cs := applyContextualFactors eng req hour iss
          let sel := selectBestIntent eng.intentCategories cs.1
          let resp := buildResponse eng freshId procTime sel.1 cs.2
          .ok (resp, dictInsert key resp cache, sel.2)

/-! ### Concrete instances used by witnesses and counterexamples -/

/-- A regex oracle that matches nothing (the instances below configure no
path patterns and no `matches` operator, so `re.match` is never consulted). -/
def rmF : String → String → Bool := fun _ _ => false

/-- The identity digest: a concrete stand-in for `md5` in witnesses (the
claims never depend on the digest beyond it being a function). -/
def idString : String → String := fun s => s

/-- An empty request (`text=None, path=None`, default method/headers). -/
def req0 : IntentRequest :=
  { text := none, path := none, method := some "GET", headers := some [],
    body := none, context := [] }

/-- An engine with empty configuration. -/
def eng0 : Engine :=
  { intentCategories := [], contextualFactors := [], algorithmType := none, rules := [] }

/-- A request agreeing with `req0` on text, path, method and headers but
differing in both `context` and `body`. -/
def req0Ctx : IntentRequest :=
  { text := none, path := none, method := some "GET", headers := some [],
    body := some "payload", context := [("userId", "u1")] }

/-- A `greater` path condition with expected value `"5"`. -/
def greaterCond : Condition :=
  { type := some "path", operator := some "greater", value := .str "5", key := none }

/-- A rule whose single AND condition is `path greater "5"`. -/
def greaterRule : Rule :=
  { conditions := { andConds := some [greaterCond], orConds := none },
    actions := { route := "payment-processing-service", priority := some 900 } }

/-- A request whose path `"abc"` is not a number. -/
def reqAbc : IntentRequest :=
  { text := none, path := some "abc", method := some "GET", headers := some [],
    body := none, context := [] }

/-- An engine whose only rule is `greaterRule`. -/
def engG : Engine :=
  { intentCategories := [], contextualFactors := [], algorithmType := none,
    rules := [greaterRule] }

/-- Category targeting the payment service with the single keyword `refund`. -/
def catA : Category :=
  { targetService := "payment-processing-service", keywords := some ["refund"],
    patterns := none, priority := none, mlModel := none, category := none,
    confidence := none }

/-- Category targeting the same service with keywords `refund`, `payment`. -/
def catB : Category :=
  { targetService := "payment-processing-service",
    keywords := some ["refund", "payment"], patterns := none, priority := none,
    mlModel := none, category := none, confidence := none }

/-- A request whose text contains `refund` but not `payment`. -/
def reqRefund : IntentRequest :=
  { text := some "i need a refund", path := none, method := some "GET",
    headers := some [], body := none, context := [] }

/-- An engine with the single category `payments ↦ catA`. -/
def engPay : Engine :=
  { intentCategories := [("payments", catA)], contextualFactors := [],
    algorithmType := none, rules := [] }

/-- `catA` after `_select_best_intent` has written the `category` and
`confidence` keys into it through the `category_info = config` alias. -/
def catAMutated : Category :=
  { catA with category := some "payments", confidence := some 1 }

/-- An engine whose only rule unconditionally routes to a service that is not
in the `ServiceRegistry` catalog. -/
def engBogus : Engine :=
  { intentCategories := [], contextualFactors := [], algorithmType := none,
    rules := [{ conditions := { andConds := some [], orConds := none },
                actions := { route := "bogus-service", priority := some 900 } }] }

/-- Rule whose conditions dict is `{'AND': []}`. -/
def ruleAndEmpty : Rule :=
  { conditions := { andConds := some [], orConds := none },
    actions := { route := "x", priority := none } }

/-- Rule whose conditions dict is `{'OR': []}`. -/
def ruleOrEmpty : Rule :=
  { conditions := { andConds := none, orConds := some [] },
    actions := { route := "x", priority := none } }

/-- Rule whose conditions dict has neither `AND` nor `OR`. -/
def ruleNoComb : Rule :=
  { conditions := { andConds := none, orConds := none },
    actions := { route := "x", priority := none } }

/-- The scores a source names for a service: the per-source lookups of `s`
that succeed, in source order.  This is the spec's notion of "the sources
that named that service" (absence contributes neither to the sum nor to the
divisor). -/
def sourcesNaming (iss : List (String × List (String × ℚ))) (s : String) :
    List ℚ :=
  iss.filterMap (fun src => dictLookup src.2 s)

/-- The per-category contributions `_match_patterns` makes to service `s`,
in configuration order: the positive scores of the categories targeting `s`. -/
def categoryContributions (rm : String → String → Bool) (req : IntentRequest)
    (s : String) (cats : List (String × Category)) : List ℚ :=
  cats.filterMap (fun nc =>
    if nc.2.targetService = s ∧ 0 < categoryScore rm req nc.2
    then some (categoryScore rm req nc.2) else none)

/-- The cache key `classify_intent` computes for `req0` under the identity
digest. -/
def w4key : String :=
  "intent:\x7b\"headers\": \x7b\x7d, \"method\": \"GET\", \"path\": null, \"text\": null\x7d"

/-- The response the empty engine produces for `req0` (the fallback result),
with fresh id `id-1` and processing time `0`. -/
def w4resp : Response :=
  { intentId := "id-1", riCategory := "general", riConfidence := 0,
    riKeywords := [], riMlModel := none,
    rtTargetService := "api-gateway-service", rtPriority := 100,
    rtStrategy := "ml-enhanced", rtTimeout := 30000, mdProcessingTime := 0,
    mdCacheHit := false, mdModelVersion := "v1.0.0", contextualFactors := [] }

/-! ### Helper lemmas -/

theorem dictLookup_dictInsert (k k' : String) (v : α) (d : List (String × α)) :
    dictLookup (dictInsert k v d) k' = if k = k' then some v else dictLookup d k' := by
  induction d with
  | nil => simp [dictInsert, dictLookup]
  | cons p rest ih =>
      obtain ⟨k₀, v₀⟩ := p
      by_cases h : k₀ = k
      · subst h
        simp only [dictInsert, if_pos rfl, dictLookup]
        by_cases h' : k₀ = k'
        · simp [h']
        · simp [h', if_neg h']
      · simp only [dictInsert, if_neg h, dictLookup]
        by_cases h' : k₀ = k'
        · subst h'
          have hne : ¬ k = k₀ := fun hk => h hk.symm
          simp [hne]
        · simp [h', ih]

theorem dictLookup_eq_none_iff (d : List (String × α)) (k : String) :
    dictLookup d k = none ↔ k ∉ d.map Prod.fst := by
  induction d with
  | nil => simp [dictLookup]
  | cons p rest ih =>
      obtain ⟨k₀, v₀⟩ := p
      by_cases h : k₀ = k
      · subst h; simp [dictLookup]
      · have hne : ¬ k = k₀ := fun hk => h hk.symm
        simp [dictLookup, if_neg h, ih, hne]

theorem serviceContribution_foldl (s : String)
    (iss : List (String × List (String × ℚ))) (a : ℚ) (n : ℕ) :
    iss.foldl
        (fun acc src =>
          match dictLookup src.2 s with
          | some v => (acc.1 + v, acc.2 + 1)
          | none => acc)
        (a, n)
      = (a + (sourcesNaming iss s).sum, n + (sourcesNaming iss s).length) := by
  induction iss generalizing a n with
  | nil => simp [sourcesNaming]
  | cons src rest ih =>
      simp only [List.foldl_cons, sourcesNaming, List.filterMap_cons]
      cases h : dictLookup src.2 s with
      | none => simpa [sourcesNaming] using ih a n
      | some v =>
          simp only [h]
          rw [ih (a + v) (n + 1)]
          simp [sourcesNaming, add_assoc]
          omega

theorem serviceContribution_spec (iss : List (String × List (String × ℚ)))
    (s : String) :
    serviceContribution iss s
      = ((sourcesNaming iss s).sum, (sourcesNaming iss s).length) := by
  have := serviceContribution_foldl s iss 0 0
  simpa [serviceContribution] using this

theorem mem_allServices_iff (iss : List (String × List (String × ℚ))) (s : String) :
    s ∈ allServices iss ↔ sourcesNaming iss s ≠ [] := by
  rw [allServices, List.mem_dedup, List.mem_flatMap]
  constructor
  · rintro ⟨src, hsrc, hmem⟩ hnil
    rw [sourcesNaming, List.filterMap_eq_nil_iff] at hnil
    exact (dictLookup_eq_none_iff src.2 s).1 (hnil src hsrc) hmem
  · intro h
    by_contra hno
    push_neg at hno
    refine h ?_
    rw [sourcesNaming, List.filterMap_eq_nil_iff]
    intro src hsrc
    rw [dictLookup_eq_none_iff]
    exact hno src hsrc

theorem combineEntry_eq_some (iss : List (String × List (String × ℚ)))
    (x : String) (p : String × ℚ) (h : combineEntry iss x = some p) : p.1 = x := by
  unfold combineEntry at h
  split at h
  · cases h; rfl
  · cases h

theorem dictLookup_filterMap_combineEntry
    (iss : List (String × List (String × ℚ))) (l : List String) (s : String) :
    dictLookup (l.filterMap (combineEntry iss)) s
      = if s ∈ l then Option.map Prod.snd (combineEntry iss s) else none := by
  induction l with
  | nil => simp [dictLookup]
  | cons x rest ih =>
      by_cases hx : x = s
      · subst hx
        cases hce : combineEntry iss x with
        | none => simp [List.filterMap_cons, hce, ih]
        | some p =>
            have hp := combineEntry_eq_some iss x p hce
            simp only [List.filterMap_cons, hce, dictLookup, hp, if_pos rfl,
              List.mem_cons, true_or, if_true]
            rfl
      · cases hce : combineEntry iss x with
        | none =>
            simp only [List.filterMap_cons, hce, ih, List.mem_cons]
            have : ¬ s = x := fun h => hx h.symm
            simp [this]
        | some p =>
            have hp := combineEntry_eq_some iss x p hce
            simp only [List.filterMap_cons, hce, dictLookup, hp, List.mem_cons]
            rw [if_neg hx, ih]
            have : ¬ s = x := fun h => hx h.symm
            simp [this]

theorem combineScores_lookup (iss : List (String × List (String × ℚ)))
    (factors : List (String × ℚ)) (s : String)
    (h : sourcesNaming iss s ≠ []) :
    dictLookup (combineScores iss factors) s
      = some ((sourcesNaming iss s).sum / ((sourcesNaming iss s).length : ℚ)) := by
  have hm : s ∈ allServices iss := (mem_allServices_iff iss s).2 h
  rw [combineScores, dictLookup_filterMap_combineEntry, if_pos hm]
  have hlen : 0 < (sourcesNaming iss s).length := List.length_pos.2 h
  rw [combineEntry, serviceContribution_spec]
  simp [hlen]

/-! ### Claim theorems -/

/-- C1: for every score-source map and every service named by at least one
source, the combined score equals the arithmetic mean of exactly the sources
that named that service (absent sources contribute neither to the sum nor to
the divisor), and appending a source that does not name the service leaves
its combined score unchanged. -/
theorem combineScores_is_mean_of_naming_sources
    (iss : List (String × List (String × ℚ))) (factors : List (String × ℚ))
    (extra : String × List (String × ℚ)) (s : String)
    (hnamed : sourcesNaming iss s ≠ []) (hextra : dictLookup extra.2 s = none) :
    dictLookup (combineScores iss factors) s
        = some ((sourcesNaming iss s).sum / ((sourcesNaming iss s).length : ℚ)) ∧
    dictLookup (combineScores (iss ++ [extra]) factors) s
        = dictLookup (combineScores iss factors) s := by
  have hsame : sourcesNaming (iss ++ [extra]) s = sourcesNaming iss s := by
    simp [sourcesNaming, List.filterMap_append, hextra]
  have hnamed' : sourcesNaming (iss ++ [extra]) s ≠ [] := by rw [hsame]; exact hnamed
  refine ⟨combineScores_lookup iss factors s hnamed, ?_⟩
  rw [combineScores_lookup iss factors s hnamed,
    combineScores_lookup (iss ++ [extra]) factors s hnamed', hsame]

/-- Witness for C1 at `iss = [rules ↦ {a ↦ 1/2}, patterns ↦ {a ↦ 1}]` and
`extra = ml ↦ {b ↦ 1}`: the combined score of `a` is the two-source mean
`3/4`, and the extra source naming only `b` does not change it. -/
theorem combineScores_is_mean_witness :
    sourcesNaming [("rules", [("a", 1/2)]), ("patterns", [("a", 1)])] "a" ≠ [] ∧
    dictLookup (("ml", [("b", (1 : ℚ))]) : String × List (String × ℚ)).2 "a" = none ∧
    (dictLookup (combineScores [("rules", [("a", 1/2)]), ("patterns", [("a", 1)])] []) "a"
        = some ((sourcesNaming [("rules", [("a", 1/2)]), ("patterns", [("a", 1)])] "a").sum
            / ((sourcesNaming [("rules", [("a", 1/2)]), ("patterns", [("a", 1)])] "a").length : ℚ)) ∧
      dictLookup (combineScores ([("rules", [("a", 1/2)]), ("patterns", [("a", 1)])]
            ++ [("ml", [("b", 1)])]) []) "a"
        = dictLookup (combineScores [("rules", [("a", 1/2)]), ("patterns", [("a", 1)])] []) "a") :=
  ⟨by decide, by decide,
    combineScores_is_mean_of_naming_sources
      [("rules", [("a", 1/2)]), ("patterns", [("a", 1)])] [] ("ml", [("b", 1)]) "a"
      (by decide) (by decide)⟩

/-- C2: code bug exhibited.  The claim says a `greater` condition with a
non-numeric operand evaluates to false without raising; the code calls
`float(actual)` with no enclosing `try`, so on `path = "abc"` the comparison
raises `ValueError`, which propagates through `_evaluate_rule_conditions` and
`_apply_routing_rules` out of `classify_intent`. -/
theorem greater_nonnumeric_raises_valueerror :
    matchValue rmF (some "abc") (some "greater") (.str "5") = .error "ValueError" ∧
    evaluateRuleConditions rmF greaterRule reqAbc = .error "ValueError" ∧
    applyRoutingRules rmF [greaterRule] reqAbc = .error "ValueError" ∧
    classifyIntent rmF none idString engG 0 [] reqAbc "intent-1" 0 = .error "ValueError" := by
  refine ⟨?_, ?_, ?_, ?_⟩ <;> with_unfolding_all rfl

/-- C3: counterexample.  Two categories target the payment service; the first
scores `1` (its single keyword matches) and the second scores `1/2` (one of
its two keywords matches).  The claim predicts `max(1, 1/2) = 1`; the code's
plain dict assignment leaves the later category's `1/2`. -/
theorem matchPatterns_overwrite_counterexample :
    categoryScore rmF reqRefund catA = 1 ∧
    categoryScore rmF reqRefund catB = 1/2 ∧
    catA.targetService = catB.targetService ∧
    dictLookup (matchPatterns rmF [("a", catA), ("b", catB)] reqRefund)
        "payment-processing-service" = some (1/2) ∧
    some (max (1 : ℚ) (1/2)) ≠ some ((1 : ℚ)/2) := by
  refine ⟨?_, ?_, ?_, ?_, ?_⟩
  · with_unfolding_all rfl
  · with_unfolding_all rfl
  · with_unfolding_all rfl
  · with_unfolding_all rfl
  · have hmax : max (1 : ℚ) (1/2) = 1 := by norm_num
    rw [hmax]
    norm_num

/-- C8: the cache key is a function of `(text, path, method, headers)` only —
two requests agreeing on those four fields get identical keys no matter how
their `context` and `body` differ. -/
theorem generateCacheKey_ignores_context_and_body (md5 : String → String)
    (r₁ r₂ : IntentRequest) (ht : r₁.text = r₂.text) (hp : r₁.path = r₂.path)
    (hm : r₁.method = r₂.method) (hh : r₁.headers = r₂.headers) :
    generateCacheKey md5 r₁ = generateCacheKey md5 r₂ := by
  unfold generateCacheKey
  rw [ht, hp, hm, hh]

/-- Witness for C8: two distinct requests differing in `context` and `body`
share the cache key. -/
theorem generateCacheKey_ignores_context_and_body_witness :
    ({ text := some "hello", path := some "/a", method := some "POST",
       headers := some [("x", "1")], body := none,
       context := [("userId", "u1")] } : IntentRequest)
      ≠ { text := some "hello", path := some "/a", method := some "POST",
          headers := some [("x", "1")], body := some "payload", context := [] } ∧
    generateCacheKey idString
        { text := some "hello", path := some "/a", method := some "POST",
          headers := some [("x", "1")], body := none, context := [("userId", "u1")] }
      = generateCacheKey idString
          { text := some "hello", path := some "/a", method := some "POST",
            headers := some [("x", "1")], body := some "payload", context := [] } :=
  ⟨by decide,
    generateCacheKey_ignores_context_and_body idString _ _ rfl rfl rfl rfl⟩

/-- C9: contextual factor scores are never blended into service selection —
for any two engines, requests and hours (hence any computed factor map), the
combined per-service score map of `_apply_contextual_factors`, and with it
the selected intent (target service and confidence), are identical. -/
theorem contextualFactors_not_blended (eng₁ eng₂ : Engine)
    (req₁ req₂ : IntentRequest) (hour₁ hour₂ : ℕ)
    (iss : List (String × List (String × ℚ))) (cats : List (String × Category)) :
    (applyContextualFactors eng₁ req₁ hour₁ iss).1
        = (applyContextualFactors eng₂ req₂ hour₂ iss).1 ∧
    selectBestIntent cats (applyContextualFactors eng₁ req₁ hour₁ iss).1
        = selectBestIntent cats (applyContextualFactors eng₂ req₂ hour₂ iss).1 :=
  ⟨rfl, rfl⟩

/-- C10: code bug exhibited.  Classifying `reqRefund` against the engine with
the single category `payments` mutates the loaded configuration:
`_select_best_intent` aliases the winning category's config dict and writes
the keys `category` and `confidence` into it, so `meta_routing_config` is not
identical before and after `classify_intent`. -/
theorem classifyIntent_mutates_loaded_config :
    (classifyIntent rmF none idString engPay 0 [] reqRefund "id-x" 0).map
        (fun t => t.2.2) = .ok [("payments", catAMutated)] ∧
    [("payments", catAMutated)] ≠ engPay.intentCategories := by
  refine ⟨?_, ?_⟩
  · with_unfolding_all rfl
  · decide

/-- C6: rule-condition evaluation (a pure function of the rule and the
request by construction of the embedding — `re.match` enters only as the
deterministic oracle `rm`): an `AND` key with an empty condition list is
vacuously true; without `AND`, an `OR` key with an empty list is false; a
conditions dict with neither combinator fails closed. -/
theorem evaluateRuleConditions_combinators (rm : String → String → Bool)
    (rule : Rule) (req : IntentRequest) :
    (rule.conditions.andConds = some [] →
      evaluateRuleConditions rm rule req = .ok true) ∧
    (rule.conditions.andConds = none → rule.conditions.orConds = some [] →
      evaluateRuleConditions rm rule req = .ok false) ∧
    (rule.conditions.andConds = none → rule.conditions.orConds = none →
      evaluateRuleConditions rm rule req = .ok false) := by
  refine ⟨?_, ?_, ?_⟩
  · intro h
    simp [evaluateRuleConditions, h, evalAll]
  · intro h1 h2
    simp [evaluateRuleConditions, h1, h2, evalAny]
  · intro h1 h2
    simp [evaluateRuleConditions, h1, h2]

/-- Witness for C6 on the three concrete condition shapes. -/
theorem evaluateRuleConditions_combinators_witness :
    ruleAndEmpty.conditions.andConds = some [] ∧
    ruleOrEmpty.conditions.andConds = none ∧ ruleOrEmpty.conditions.orConds = some [] ∧
    ruleNoComb.conditions.andConds = none ∧ ruleNoComb.conditions.orConds = none ∧
    evaluateRuleConditions rmF ruleAndEmpty req0 = .ok true ∧
    evaluateRuleConditions rmF ruleOrEmpty req0 = .ok false ∧
    evaluateRuleConditions rmF ruleNoComb req0 = .ok false :=
  ⟨rfl, rfl, rfl, rfl, rfl,
    (evaluateRuleConditions_combinators rmF ruleAndEmpty req0).1 rfl,
    (evaluateRuleConditions_combinators rmF ruleOrEmpty req0).2.1 rfl rfl,
    (evaluateRuleConditions_combinators rmF ruleNoComb req0).2.2 rfl rfl⟩

/-- C5: when the combined score map is empty, classification returns the
fallback: category `general`, target `api-gateway-service`, confidence `0.0`
and the default priority `100`. -/
theorem classifyIntent_no_scores_fallback (rm : String → String → Bool)
    (mlc : Option (String → List (String × ℚ))) (md5 : String → String)
    (eng : Engine) (hour : ℕ) (cache : List (String × Response))
    (req : IntentRequest) (fid : String) (pt : ℚ)
    (iss : List (String × List (String × ℚ)))
    (hmiss : dictLookup cache (generateCacheKey md5 req) = none)
    (hscores : calculateIntentScores rm mlc eng req = .ok iss)
    (hempty : combineScores iss (computeFactors eng req hour) = []) :
    (classifyIntent rm mlc md5 eng hour cache req fid pt).map
        (fun t => (t.1.riCategory, t.1.rtTargetService, t.1.riConfidence, t.1.rtPriority))
      = .ok ("general", "api-gateway-service", (0 : ℚ), (100 : ℚ)) := by
  simp only [classifyIntent, hmiss, hscores, applyContextualFactors, hempty,
    selectBestIntent, pythonMaxKey, buildResponse, Except.map]
  rfl

/-- Witness for C5: the empty request against the empty engine (no rules, no
categories, no classifier) produces no scores and yields the fallback. -/
theorem classifyIntent_no_scores_fallback_witness :
    dictLookup ([] : List (String × Response)) (generateCacheKey idString req0) = none ∧
    calculateIntentScores rmF none eng0 req0 = .ok [("rules", []), ("patterns", [])] ∧
    combineScores [("rules", []), ("patterns", [])] (computeFactors eng0 req0 0) = [] ∧
    (classifyIntent rmF none idString eng0 0 [] req0 "id-1" 0).map
        (fun t => (t.1.riCategory, t.1.rtTargetService, t.1.riConfidence, t.1.rtPriority))
      = .ok ("general", "api-gateway-service", (0 : ℚ), (100 : ℚ)) :=
  ⟨rfl, by with_unfolding_all rfl, by with_unfolding_all rfl,
    classifyIntent_no_scores_fallback rmF none idString eng0 0 [] req0 "id-1" 0
      [("rules", []), ("patterns", [])] rfl (by with_unfolding_all rfl)
      (by with_unfolding_all rfl)⟩

/-- C4: if a classification call on `req₁` returns a result, a further call
against the resulting cache with any request `req₂` that is identical on
text, path, method and headers — `context` and `body` may differ arbitrarily
— computes the same cache key, hits, and returns the stored decision with
`metadata.cacheHit = true` and the same `intentId`, regardless of the fresh
id supplied to the second call: the intent id is not regenerated on a hit. -/
theorem classifyIntent_cache_hit_same_id (rm : String → String → Bool)
    (mlc : Option (String → List (String × ℚ))) (md5 : String → String)
    (eng : Engine) (hour₁ hour₂ : ℕ) (cache : List (String × Response))
    (req₁ req₂ : IntentRequest) (id₁ id₂ : String) (pt₁ pt₂ : ℚ) (r₁ : Response)
    (cache₁ : List (String × Response)) (cats₁ : List (String × Category))
    (ht : req₁.text = req₂.text) (hp : req₁.path = req₂.path)
    (hm : req₁.method = req₂.method) (hh : req₁.headers = req₂.headers)
    (h : classifyIntent rm mlc md5 eng hour₁ cache req₁ id₁ pt₁ = .ok (r₁, cache₁, cats₁)) :
    classifyIntent rm mlc md5 eng hour₂ cache₁ req₂ id₂ pt₂
      = .ok ({ r₁ with mdCacheHit := true }, cache₁, eng.intentCategories) ∧
    ({ r₁ with mdCacheHit := true }).mdCacheHit = true ∧
    ({ r₁ with mdCacheHit := true }).intentId = r₁.intentId := by
  refine ⟨?_, rfl, rfl⟩
  have hkey : generateCacheKey md5 req₂ = generateCacheKey md5 req₁ := by
    unfold generateCacheKey
    rw [ht, hp, hm, hh]
  simp only [classifyIntent] at h ⊢
  rw [hkey]
  cases hc : dictLookup cache (generateCacheKey md5 req₁) with
  | some cached =>
      rw [hc] at h
      simp only [Except.ok.injEq, Prod.mk.injEq] at h
      obtain ⟨h1, h2, h3⟩ := h
      subst h2
      rw [hc, ← h1]
  | none =>
      rw [hc] at h
      cases hs : calculateIntentScores rm mlc eng req₁ with
      | error e => rw [hs] at h; cases h
      | ok iss =>
          rw [hs] at h
          simp only [Except.ok.injEq, Prod.mk.injEq] at h
          obtain ⟨h1, h2, h3⟩ := h
          subst h1
          subst h2
          rw [dictLookup_dictInsert]
          simp

/-- Witness for C4: the empty engine classifies `req0` (a miss, producing the
fallback response under id `id-1`), and a second call with `req0Ctx` — a
distinct request agreeing only on text, path, method and headers, with
different `context` and `body` — under a different fresh id `id-2`, hour and
timing hits the cache and returns the stored decision with `cacheHit = true`
and the original id `id-1`. -/
theorem classifyIntent_cache_hit_same_id_witness :
    req0.text = req0Ctx.text ∧ req0.path = req0Ctx.path ∧
    req0.method = req0Ctx.method ∧ req0.headers = req0Ctx.headers ∧
    req0 ≠ req0Ctx ∧
    classifyIntent rmF none idString eng0 0 [] req0 "id-1" 0
      = .ok (w4resp, [(w4key, w4resp)], []) ∧
    (classifyIntent rmF none idString eng0 23 [(w4key, w4resp)] req0Ctx "id-2" 9
        = .ok ({ w4resp with mdCacheHit := true }, [(w4key, w4resp)], eng0.intentCategories) ∧
      ({ w4resp with mdCacheHit := true }).mdCacheHit = true ∧
      ({ w4resp with mdCacheHit := true }).intentId = w4resp.intentId) :=
  ⟨rfl, rfl, rfl, rfl, by decide, by with_unfolding_all rfl,
    classifyIntent_cache_hit_same_id rmF none idString eng0 0 23 [] req0 req0Ctx
      "id-1" "id-2" 0 9 w4resp [(w4key, w4resp)] [] rfl rfl rfl rfl
      (by with_unfolding_all rfl)⟩

theorem getLast?_cons_or (x : ℚ) (l : List ℚ) (o : Option ℚ) :
    ((x :: l).getLast?).or o = (l.getLast?).or (some x) := by
  cases hl : l.getLast? with
  | none => simp [List.getLast?_cons, hl]
  | some z => simp [List.getLast?_cons, hl]

theorem matchPatternsGo_lookup (rm : String → String → Bool) (req : IntentRequest)
    (s : String) (cats : List (String × Category)) :
    ∀ d : List (String × ℚ),
      dictLookup (matchPatternsGo rm req cats d) s
        = ((categoryContributions rm req s cats).getLast?).or (dictLookup d s) := by
  induction cats with
  | nil => intro d; simp [matchPatternsGo, categoryContributions]
  | cons nc rest ih =>
      intro d
      obtain ⟨n, c⟩ := nc
      simp only [matchPatternsGo]
      rw [ih]
      by_cases hpos : 0 < categoryScore rm req c
      · by_cases hts : c.targetService = s
        · have hcontrib : categoryContributions rm req s ((n, c) :: rest)
              = categoryScore rm req c :: categoryContributions rm req s rest := by
            simp [categoryContributions, hts, hpos]
          rw [hcontrib, if_pos hpos, dictLookup_dictInsert, hts, if_pos rfl,
            getLast?_cons_or]
        · have hcontrib : categoryContributions rm req s ((n, c) :: rest)
              = categoryContributions rm req s rest := by
            simp [categoryContributions, hts]
          rw [hcontrib, if_pos hpos, dictLookup_dictInsert, if_neg hts]
      · have hcontrib : categoryContributions rm req s ((n, c) :: rest)
            = categoryContributions rm req s rest := by
          simp [categoryContributions, hpos]
        rw [hcontrib, if_neg hpos]

/-- C3 amended: later categories targeting the same service overwrite rather
than take the maximum — for every service, the pattern-score map holds the
contribution of the last (in configuration order) category that targets it
with a positive score, not the maximum of the contributions. -/
theorem matchPatterns_last_positive_wins (rm : String → String → Bool)
    (cats : List (String × Category)) (req : IntentRequest) (s : String) :
    dictLookup (matchPatterns rm cats req) s
      = (categoryContributions rm req s cats).getLast? := by
  rw [matchPatterns, matchPatternsGo_lookup]
  simp [dictLookup]

theorem pythonMaxKeyGo_mem (l : List (String × ℚ)) :
    ∀ best bv, pythonMaxKeyGo best bv l = best ∨ pythonMaxKeyGo best bv l ∈ l.map Prod.fst := by
  induction l with
  | nil => intro best bv; left; rfl
  | cons p rest ih =>
      intro best bv
      obtain ⟨k, v⟩ := p
      simp only [pythonMaxKeyGo]
      by_cases h : bv < v
      · rw [if_pos h]
        rcases ih k v with h1 | h1
        · right; simp [h1]
        · right; simp [h1]
      · rw [if_neg h]
        rcases ih best bv with h1 | h1
        · left; exact h1
        · right; simp [h1]

theorem pythonMaxKey_mem (l : List (String × ℚ)) (k : String)
    (h : pythonMaxKey l = some k) : k ∈ l.map Prod.fst := by
  cases l with
  | nil => cases h
  | cons p rest =>
      obtain ⟨k₀, v₀⟩ := p
      simp only [pythonMaxKey, Option.some.injEq] at h
      subst h
      rcases pythonMaxKeyGo_mem rest k₀ v₀ with h1 | h1
      · simp [h1]
      · simp [h1]

theorem mem_keys_filterMap_combineEntry (iss : List (String × List (String × ℚ)))
    (l : List String) (k : String)
    (h : k ∈ (l.filterMap (combineEntry iss)).map Prod.fst) : k ∈ l := by
  induction l with
  | nil => simp at h
  | cons x rest ih =>
      cases hce : combineEntry iss x with
      | none =>
          rw [List.filterMap_cons, hce] at h
          exact List.mem_cons_of_mem x (ih h)
      | some p =>
          have hp := combineEntry_eq_some iss x p hce
          rw [List.filterMap_cons, hce, List.map_cons, List.mem_cons] at h
          rcases h with h | h
          · rw [h, hp]; exact List.mem_cons_self x rest
          · exact List.mem_cons_of_mem x (ih h)

theorem selectCat_some_target (best : String) (conf : ℚ) :
    ∀ cats : List (String × Category), ∀ nc : String × Category,
      (selectCat best conf cats).1 = some nc → nc.2.targetService = best := by
  intro cats
  induction cats with
  | nil => intro nc h; cases h
  | cons p rest ih =>
      intro nc h
      obtain ⟨n, c⟩ := p
      by_cases hts : c.targetService = best
      · simp only [selectCat, if_pos hts, Option.some.injEq] at h
        rw [← h]
        exact hts
      · simp only [selectCat, if_neg hts] at h
        exact ih nc h

theorem selectBestIntent_targetService (cats : List (String × Category))
    (scores : List (String × ℚ)) (best : String)
    (h : pythonMaxKey scores = some best) :
    (selectBestIntent cats scores).1.targetService = best := by
  cases hsc : selectCat best ((dictLookup scores best).getD 0) cats with
  | mk found cats2 =>
      cases found with
      | none => simp [selectBestIntent, h, hsc]
      | some nc =>
          have ht := selectCat_some_target best ((dictLookup scores best).getD 0) cats nc
            (by rw [hsc])
          simp [selectBestIntent, h, hsc, ht]

/-- C7: counterexample.  A configuration whose only rule routes every request
to `bogus-service` makes classification return a `routing.targetService` that
is neither a `ServiceRegistry` catalog key nor the reserved fallback id. -/
theorem classifyIntent_unregistered_target_cex :
    (classifyIntent rmF none idString engBogus 0 [] req0 "id-b" 0).map
        (fun t => t.1.rtTargetService) = .ok "bogus-service" ∧
    dictLookup serviceRegistryServices "bogus-service" = none ∧
    "bogus-service" ≠ "api-gateway-service" := by
  refine ⟨?_, ?_, ?_⟩
  · with_unfolding_all rfl
  · with_unfolding_all rfl
  · decide

/-- C7 amended (as far as the counterexample forces): on a cache miss the
selected `routing.targetService` is either the reserved fallback id or a
service named by at least one score source — but score sources quote the
loaded configuration (rule routes, category targets, classifier labels),
which need not be keys of the `ServiceRegistry` catalog. -/
theorem classifyIntent_target_named_by_source (rm : String → String → Bool)
    (mlc : Option (String → List (String × ℚ))) (md5 : String → String)
    (eng : Engine) (hour : ℕ) (cache : List (String × Response))
    (req : IntentRequest) (fid : String) (pt : ℚ)
    (iss : List (String × List (String × ℚ))) (resp : Response)
    (c₂ : List (String × Response)) (cats₂ : List (String × Category))
    (hmiss : dictLookup cache (generateCacheKey md5 req) = none)
    (hscores : calculateIntentScores rm mlc eng req = .ok iss)
    (h : classifyIntent rm mlc md5 eng hour cache req fid pt = .ok (resp, c₂, cats₂)) :
    resp.rtTargetService = "api-gateway-service" ∨
    sourcesNaming iss resp.rtTargetService ≠ [] := by
  simp only [classifyIntent, hmiss, hscores, Except.ok.injEq, Prod.mk.injEq] at h
  obtain ⟨h1, -, -⟩ := h
  cases hmax : pythonMaxKey (applyContextualFactors eng req hour iss).1 with
  | none =>
      left
      rw [← h1]
      simp [buildResponse, selectBestIntent, hmax]
  | some best =>
      right
      have htgt : resp.rtTargetService = best := by
        rw [← h1]
        simpa [buildResponse] using
          selectBestIntent_targetService eng.intentCategories
            (applyContextualFactors eng req hour iss).1 best hmax
      have hks : best ∈ (applyContextualFactors eng req hour iss).1.map Prod.fst :=
        pythonMaxKey_mem _ _ hmax
      have hall : best ∈ allServices iss :=
        mem_keys_filterMap_combineEntry iss (allServices iss) best hks
      rw [htgt]
      exact (mem_allServices_iff iss best).1 hall

/-- Witness for C7's amended statement: for the empty engine the classified
request takes the fallback disjunct. -/
theorem classifyIntent_target_named_by_source_witness :
    dictLookup ([] : List (String × Response)) (generateCacheKey idString req0) = none ∧
    calculateIntentScores rmF none eng0 req0 = .ok [("rules", []), ("patterns", [])] ∧
    classifyIntent rmF none idString eng0 0 [] req0 "id-1" 0
      = .ok (w4resp, [(w4key, w4resp)], []) ∧
    (w4resp.rtTargetService = "api-gateway-service" ∨
      sourcesNaming [("rules", []), ("patterns", [])] w4resp.rtTargetService ≠ []) :=
  ⟨rfl, by with_unfolding_all rfl, by with_unfolding_all rfl,
    classifyIntent_target_named_by_source rmF none idString eng0 0 [] req0 "id-1" 0
      [("rules", []), ("patterns", [])] w4resp [(w4key, w4resp)] [] rfl
      (by with_unfolding_all rfl) (by with_unfolding_all rfl)⟩
